import Mathlib

/-!
Verification development for the studip-sync repository (src/main.py).

The Python source is shallowly embedded: the pure path functions become Lean
functions on `String`, Python `dict`s become association lists with
insertion-order / last-write-wins update semantics (`dictInsert`), the local
filesystem becomes a map from paths to file contents, and the remote server
becomes explicit oracles (a tree of folder data for the recursive fetch, and
id-indexed functions for file metadata and contents).  Fallible remote calls
return `Except` carrying the HTTP status, mirroring the exception raised in
`StudipSync.get_req`.
-/

namespace StudipSync

/-! ## Python dict model

Python `dict` assignment `d[k] = v` keeps the original insertion position of
an existing key while replacing its value, and appends new keys at the end;
iteration is in insertion order.  We model a dict as an association list and
`d[k] = v` as `dictInsert`. -/

/-- Python `d[k] = v`: replace in place if the key is present, else append. -/
def dictInsert {α : Type} (d : List (String × α)) (k : String) (v : α) :
    List (String × α) :=
  if d.any fun p => p.1 = k then
    d.map fun p => if p.1 = k then (k, v) else p
  else
    d ++ [(k, v)]

/-- Python `d[k]` / `k in d`: first (and, under the dict invariant, only)
binding of the key. -/
def dictLookup {α : Type} : List (String × α) → String → Option α
  | [], _ => none
  | p :: rest, k => if p.1 = k then some p.2 else dictLookup rest k

/-- The keys of a dict, in insertion order. -/
def dictKeys {α : Type} (d : List (String × α)) : List String :=
  d.map Prod.fst

/-! ## Path sanitization (src/main.py lines 189-195) -/

/-- The characters matched by the regex `[<>:\"\\|?*]` in `clean_path`. -/
def dirtyChar (c : Char) : Bool :=
  c = '<' || c = '>' || c = ':' || c = '"' || c = '\\' || c = '|' || c = '?' || c = '*'

/-- `StudipSync.clean_path`: `re.sub(r"[<>:\"\\|?*]", "_", path)` — every
occurrence of a forbidden character is replaced by an underscore.  The
character class matches single characters, so the substitution is a
character-wise map. -/
def clean_path (path : String) : String :=
  String.mk (path.data.map fun c => if dirtyChar c then '_' else c)

/-- `StudipSync.escape_filename`: `name.replace("/", "_")`. -/
def escape_filename (name : String) : String :=
  String.mk (name.data.map fun c => if c = '/' then '_' else c)

/-! ## Folder trees and the path flattener (src/main.py lines 255-263)

A fetched folder is a Python dict holding `name`, `files` and `subfolders`.
The empty leaf returned for unreadable folders has no `name` key; we model it
with `name := ""`, which is sound because `get_files` only reads a folder's
name while iterating a non-empty `subfolders` list, and the leaf's list is
empty.  A dict lacking the `subfolders` key behaves in `get_files` exactly
like one holding `[]` (the membership test just skips the loop), so both are
modelled as `[]`. -/

structure FileEntry where
  name : String
  id : String
  deriving DecidableEq, Repr

inductive Folder : Type where
  | node (name : String) (files : List FileEntry) (subfolders : List Folder)
  deriving Repr

def Folder.name : Folder → String
  | .node n _ _ => n

def Folder.files : Folder → List FileEntry
  | .node _ f _ => f

def Folder.subfolders : Folder → List Folder
  | .node _ _ s => s

/-- The empty leaf `{"files": [], "subfolders": []}` produced by
`get_subfolders` for an unreadable folder (its missing `name` key is modelled
as `""`, never read by `get_files`). -/
def emptyLeaf : Folder := .node "" [] []

mutual

/-- `StudipSync.get_files(folder, parent_path)`: emits
`parent_path + "/" + file.name ↦ file.id` for every direct file, then for
every subfolder merges the recursive result computed with `parent_path`
extended by the *current* folder's name (`folder['name']`, line 261), each
entry written with dict assignment (last-write-wins). -/
def get_files : Folder → String → List (String × String)
  | .node name fls subs, parent_path =>
    get_files_go subs (parent_path ++ "/" ++ name)
      (fls.foldl (fun d f => dictInsert d (parent_path ++ "/" ++ f.name) f.id) [])

/-- The `for subfolder in folder["subfolders"]` loop of `get_files`. -/
def get_files_go : List Folder → String → List (String × String) → List (String × String)
  | [], _, d => d
  | s :: rest, pp, d =>
    get_files_go rest pp ((get_files s pp).foldl (fun d kv => dictInsert d kv.1 kv.2) d)

end

/-! ## HTTP layer (src/main.py lines 137-150)

`requests.get` is modelled by handing `get_req` the `Response` the server
produces for the request.  A response carries its status code, the raw body
bytes (`resp.content`, a string here) and the structure `resp.json()` would
yield (kept as an uninterpreted string, since only its identity matters). -/

structure Response where
  status_code : Nat
  content : String
  json : String
  deriving DecidableEq, Repr

/-- `StudipSync.get_req`: raises `Exception(f"Failed to get {url}: {status}")`
when `resp.status_code != 200`, otherwise returns the response. -/
def get_req (resp : Response) (url : String) : Except String Response :=
  if resp.status_code ≠ 200 then
    .error ("Failed to get " ++ url ++ ": " ++ toString resp.status_code)
  else
    .ok resp

/-- `StudipSync.get_no_parse`: `get_req(path).content`. -/
def get_no_parse (resp : Response) (url : String) : Except String String :=
  (get_req resp url).map Response.content

/-- `StudipSync.get`: `get_req(path).json()`. -/
def get (resp : Response) (url : String) : Except String String :=
  (get_req resp url).map Response.json

/-- Modelled from the spec's wording for comparison: a "success" HTTP status
in the ordinary sense, i.e. any 2xx status. -/
def successStatus_spec (s : Nat) : Bool :=
  200 ≤ s && s < 300

/-! ## Recursive tree fetch (src/main.py lines 152-161)

The remote folder hierarchy is an oracle tree: each node holds the folder
stub the server reported for it (`id` is irrelevant to control flow and
omitted; `is_readable` is `none` when the key is absent), the status codes
with which its two endpoints (`/folder/{id}/subfolders`, then
`/folder/{id}/files`) would answer, the file list, and the child trees.
`get_subfolders` returns the built `Folder` together with the number of
remote requests issued, or the status of the first failing request —
`Except` models the exception unwinding the whole recursion. -/

structure FolderStub where
  name : String
  is_readable : Option Bool
  deriving DecidableEq, Repr

inductive SrvTree : Type where
  | node (stub : FolderStub) (subfoldersStatus filesStatus : Nat)
      (files : List FileEntry) (children : List SrvTree)
  deriving Repr

mutual

/-- `StudipSync.get_subfolders(folder)`: if `"is_readable" in folder and
folder["is_readable"]`, issue the two remote calls (each raising on a
non-200 status), then recurse into every reported subfolder stub in order;
otherwise return the empty leaf without touching the network. -/
def get_subfolders : SrvTree → Except Nat (Folder × Nat)
  | .node stub subSt filesSt fls children =>
    if stub.is_readable = some true then
      if subSt ≠ 200 then .error subSt
      else if filesSt ≠ 200 then .error filesSt
      else
        match get_subfolders_go children with
        | .error s => .error s
        | .ok (subs, n) => .ok (.node stub.name fls subs, 2 + n)
    else
      .ok (emptyLeaf, 0)

/-- The `for subfolder in subfolders` loop of `get_subfolders`. -/
def get_subfolders_go : List SrvTree → Except Nat (List Folder × Nat)
  | [] => .ok ([], 0)
  | c :: rest =>
    match get_subfolders c with
    | .error s => .error s
    | .ok (f, n) =>
      match get_subfolders_go rest with
      | .error s => .error s
      | .ok (fs, m) => .ok (f :: fs, n + m)

end

/-! ## Archive synchronizer (src/main.py lines 265-287)

The archive is a map from on-disk path to file content (an association list
with `dictInsert` write semantics; `open(path, "w")` truncates, which the
update branch of `dictInsert` mirrors).  `os.path.exists` is presence in the
map.  The remote file endpoints are total oracles from file id to metadata
and to downloaded bytes — the sync claims concern runs in which those
requests succeed.  Directory creation (`os.makedirs`) has no observable
effect at this level and is not tracked. -/

/-- `GET /file/{id}` metadata; only `is_downloadable` is consulted. -/
structure FileMeta where
  is_downloadable : Bool
  deriving DecidableEq, Repr

structure Remote where
  file_meta : String → FileMeta
  file_content : String → String

abbrev FS := List (String × String)

def fsExists (fs : FS) (p : String) : Bool :=
  (dictLookup fs p).isSome

/-- The exact sentinel written for non-downloadable files (line 287). -/
def placeholderText : String := "studip-sync:non-downloadable-file"

/-- Run-time counters of one sync run: the downloads counter counts
`GET /file/{id}/download` content requests, the meta counter counts
`GET /file/{id}` metadata requests. -/
structure SyncState where
  fs : FS
  downloads : Nat
  meta_gets : Nat
  deriving DecidableEq, Repr

/-- Line 274: `clean_path(os.path.join(self.data_path, "archive", file))` —
the on-disk path of one flat-map entry (`os.path.join` of these relative
components is `/`-concatenation). -/
def archive_path (data_path logical : String) : String :=
  clean_path (data_path ++ "/archive/" ++ logical)

/-- One iteration of the `for file in files` loop of `StudipSync.sync`
(lines 273-287): `file_path = clean_path(os.path.join(data_path, "archive",
file))`; skip when it exists; otherwise fetch the metadata and either
download the content to `file_path` or write the placeholder text. -/
def sync_file (r : Remote) (data_path : String) (st : SyncState)
    (entry : String × String) : SyncState :=
  let file_path := archive_path data_path entry.1
  if fsExists st.fs file_path then st
  else if (r.file_meta entry.2).is_downloadable then
    { fs := dictInsert st.fs file_path (r.file_content entry.2)
      downloads := st.downloads + 1
      meta_gets := st.meta_gets + 1 }
  else
    { fs := dictInsert st.fs file_path placeholderText
      downloads := st.downloads
      meta_gets := st.meta_gets + 1 }

/-- The whole download loop of `StudipSync.sync` over the flat file map,
in insertion order. -/
def sync_files (r : Remote) (data_path : String) (files : List (String × String))
    (fs : FS) : SyncState :=
  files.foldl (sync_file r data_path) { fs := fs, downloads := 0, meta_gets := 0 }

/-- A course as consumed by `sync` and `update_links`: its title and, when
the course has a documents module, its fetched root folder. -/
structure Course where
  title : String
  top_folder : Option Folder

/-- The map-building loop of `StudipSync.sync` (lines 267-271): merge
`get_files(course["top_folder"], course["title"])` for every course holding
a `top_folder`, with dict assignment. -/
def build_files_map (courses : List Course) : List (String × String) :=
  courses.foldl
    (fun files c =>
      match c.top_folder with
      | some tf => (get_files tf c.title).foldl (fun d kv => dictInsert d kv.1 kv.2) files
      | none => files)
    []

/-- `StudipSync.sync` (lines 265-287): build the flat file map from the
fetched courses, then run the download loop against the archive. -/
def sync (r : Remote) (data_path : String) (courses : List Course) (fs : FS) :
    SyncState :=
  sync_files r data_path (build_files_map courses) fs

/-! ## Fallible sync loop

The per-file requests of the download loop (`self.get(f"/file/{id}")` at
line 278 and `self.get_no_parse(f"/file/{id}/download")` at line 281) go
through `get_req` and therefore raise on a non-200 status, unwinding the
whole `sync` call.  To state that, the remote file endpoints are also given
as fallible oracles answering with either the payload or the non-200 status
of the response; `Remote` above is the special case in which every request
answers 200. -/

structure RemoteE where
  file_meta : String → Except Nat FileMeta
  file_content : String → Except Nat String

/-- One iteration of the `for file in files` loop of `StudipSync.sync` with
fallible remote endpoints, in source order: skip if the path exists,
otherwise fetch the metadata (raising on non-200), then either download the
content (raising on non-200) or write the placeholder. -/
def sync_fileE (r : RemoteE) (data_path : String) (st : SyncState)
    (entry : String × String) : Except Nat SyncState :=
  let file_path := archive_path data_path entry.1
  if fsExists st.fs file_path then .ok st
  else
    match r.file_meta entry.2 with
    | .error s => .error s
    | .ok meta =>
      if meta.is_downloadable then
        match r.file_content entry.2 with
        | .error s => .error s
        | .ok content =>
          .ok { fs := dictInsert st.fs file_path content
                downloads := st.downloads + 1
                meta_gets := st.meta_gets + 1 }
      else
        .ok { fs := dictInsert st.fs file_path placeholderText
              downloads := st.downloads
              meta_gets := st.meta_gets + 1 }

/-- The download loop with fallible endpoints: a raise at any entry
propagates out of the whole loop and the remaining entries are never
processed. -/
def sync_filesE_go (r : RemoteE) (data_path : String) :
    List (String × String) → SyncState → Except Nat SyncState
  | [], st => .ok st
  | e :: rest, st =>
    match sync_fileE r data_path st e with
    | .error s => .error s
    | .ok st' => sync_filesE_go r data_path rest st'

/-- The whole download loop of `StudipSync.sync` over the flat file map with
fallible remote endpoints. -/
def sync_filesE (r : RemoteE) (data_path : String)
    (files : List (String × String)) (fs : FS) : Except Nat SyncState :=
  sync_filesE_go r data_path files { fs := fs, downloads := 0, meta_gets := 0 }

/-! ## Semester linker (src/main.py lines 202-211)

The `this-semester` directory is `none` when absent and `some entries` when
present, each entry a symlink `(name, target)` (created with
`target_is_directory=True`).  `update_links` removes the directory when it
exists, recreates it empty, and only then fetches the course list; the fetch
outcome is a parameter (`Except` of the transport error status).  On a fetch
failure the exception propagates, leaving the freshly created empty
directory behind.  `list(set(...))` deduplicates the escaped titles with
unspecified order; `List.eraseDups` realizes one such order. -/

def update_links (fetch_courses : Except Nat (List Course))
    (prev : Option (List (String × String))) :
    Option (List (String × String)) × Option Nat :=
  -- lines 204-208: `shutil.rmtree` when present, then `os.mkdir`
  let dir_after_mkdir : Option (List (String × String)) := some []
  match fetch_courses with
  | .error s => (dir_after_mkdir, some s)
  | .ok courses =>
    (some (((courses.map fun c => escape_filename c.title).eraseDups).map
        fun t => (t, "../archive/" ++ t)),
      none)

/-! ## Semester selection (src/main.py lines 222-252)

Persistent selection state: the in-memory `current_semester` field and the
content of the `.current-semester` marker file.  Only the explicit-title
path of `select_semester` is modelled (the `fzf` interactive branch is UI).
The title map is built with dict assignment over the server's semester
collection; the lookup `semesterNameToMeta[semester]` raises `KeyError`
before either piece of state is touched.  The subsequent `update_links`
call operates on the link directory, not on these fields. -/

structure SemMeta where
  title : String
  id : String
  deriving DecidableEq, Repr

structure AppState where
  current_semester : Option String
  marker_file : Option String
  deriving DecidableEq, Repr

/-- `StudipSync.select_semester(semester)` with an explicit title: build the
title → metadata dict, look the title up (KeyError aborts with the state at
that moment returned unchanged), then set `current_semester` and write the
id to the marker file via `save_current_semester`.  The returned pair is the
state at termination and the error, if any. -/
def select_semester (semesters : List SemMeta) (semester : String)
    (st : AppState) : AppState × Option String :=
  let semesterNameToMeta :=
    semesters.foldl (fun d v => dictInsert d v.title v) []
  match dictLookup semesterNameToMeta semester with
  | none => (st, some ("KeyError: " ++ semester))
  | some meta =>
    ({ current_semester := some meta.id, marker_file := some meta.id }, none)

/-! ## Dict lemmas -/

theorem dictLookup_map_replace {α : Type} (k : String) (v : α) (k' : String)
    (h : k' ≠ k) (d : List (String × α)) :
    dictLookup (d.map fun p => if p.1 = k then (k, v) else p) k' = dictLookup d k' := by
  induction d with
  | nil => rfl
  | cons p rest ih =>
    by_cases hp : p.1 = k
    · simp [dictLookup, hp, Ne.symm h, ih]
    · by_cases hp' : p.1 = k'
      · simp [dictLookup, hp, hp', h]
      · simp [dictLookup, hp, hp', ih]

theorem dictLookup_map_replace_self {α : Type} (k : String) (v : α)
    (d : List (String × α)) (h : d.any (fun p => p.1 = k) = true) :
    dictLookup (d.map fun p => if p.1 = k then (k, v) else p) k = some v := by
  induction d with
  | nil => simp at h
  | cons p rest ih =>
    by_cases hp : p.1 = k
    · simp [dictLookup, hp]
    · simp only [List.any_cons, Bool.or_eq_true, decide_eq_true_eq] at h
      rcases h with h | h
      · exact absurd h hp
      · simp [dictLookup, hp, ih h]

theorem dictLookup_append {α : Type} (d l : List (String × α)) (k : String) :
    dictLookup (d ++ l) k =
      match dictLookup d k with
      | some v => some v
      | none => dictLookup l k := by
  induction d with
  | nil => rfl
  | cons p rest ih =>
    by_cases hp : p.1 = k <;> simp [dictLookup, hp, ih]

theorem dictLookup_eq_none_of_any_false {α : Type} (d : List (String × α))
    (k : String) (h : d.any (fun p => p.1 = k) = false) :
    dictLookup d k = none := by
  induction d with
  | nil => rfl
  | cons p rest ih =>
    simp only [List.any_cons, Bool.or_eq_false_iff, decide_eq_false_iff_not] at h
    simp [dictLookup, h.1, ih h.2]

/-- Reading a dict back at the key just assigned yields the assigned value
(last write wins for an identical key). -/
theorem dictLookup_dictInsert_self {α : Type} (d : List (String × α))
    (k : String) (v : α) :
    dictLookup (dictInsert d k v) k = some v := by
  by_cases h : d.any (fun p => p.1 = k) = true
  · simp only [dictInsert, h, if_true]
    exact dictLookup_map_replace_self k v d h
  · have h' : d.any (fun p => p.1 = k) = false := Bool.eq_false_iff.mpr h
    simp only [dictInsert, h', Bool.false_eq_true, if_false]
    rw [dictLookup_append, dictLookup_eq_none_of_any_false d k h']
    simp [dictLookup]

/-- Dict assignment leaves every other key's binding unchanged. -/
theorem dictLookup_dictInsert_ne {α : Type} (d : List (String × α))
    (k : String) (v : α) (k' : String) (h : k' ≠ k) :
    dictLookup (dictInsert d k v) k' = dictLookup d k' := by
  by_cases ha : d.any (fun p => p.1 = k) = true
  · simp only [dictInsert, ha, if_true]
    exact dictLookup_map_replace k v k' h d
  · have ha' : d.any (fun p => p.1 = k) = false := Bool.eq_false_iff.mpr ha
    simp only [dictInsert, ha', Bool.false_eq_true, if_false]
    rw [dictLookup_append]
    cases hd : dictLookup d k' with
    | some v' => rfl
    | none => simp [dictLookup, Ne.symm h]

theorem dictKeys_dictInsert_of_mem {α : Type} (d : List (String × α))
    (k : String) (v : α) (h : d.any (fun p => p.1 = k) = true) :
    dictKeys (dictInsert d k v) = dictKeys d := by
  simp only [dictInsert, h, if_true, dictKeys, List.map_map]
  apply List.map_congr_left
  intro p _
  by_cases hp : p.1 = k <;> simp [hp]

/-- `dictInsert` preserves key uniqueness: an existing key keeps its
position, a new key is appended. -/
theorem dictInsert_keys_nodup {α : Type} (d : List (String × α))
    (k : String) (v : α) (h : (dictKeys d).Nodup) :
    (dictKeys (dictInsert d k v)).Nodup := by
  by_cases ha : d.any (fun p => p.1 = k) = true
  · rw [dictKeys_dictInsert_of_mem d k v ha]
    exact h
  · have ha' : d.any (fun p => p.1 = k) = false := Bool.eq_false_iff.mpr ha
    simp only [dictInsert, ha', Bool.false_eq_true, if_false, dictKeys, List.map_append]
    rw [List.nodup_append]
    refine ⟨h, List.nodup_singleton k, ?_⟩
    intro a hmem
    simp only [List.map_cons, List.map_nil, List.mem_singleton]
    intro hak
    subst hak
    rcases List.mem_map.mp hmem with ⟨p, hp, hpk⟩
    have : d.any (fun p => p.1 = a) = true :=
      List.any_eq_true.mpr ⟨p, hp, by simp [hpk]⟩
    exact ha this

/-- Any fold of dict assignments preserves key uniqueness. -/
theorem foldl_dictInsert_keys_nodup {α β : Type} (key : β → String) (val : β → α)
    (l : List β) (d : List (String × α)) (h : (dictKeys d).Nodup) :
    (dictKeys (l.foldl (fun d x => dictInsert d (key x) (val x)) d)).Nodup := by
  induction l generalizing d with
  | nil => exact h
  | cons x rest ih => exact ih _ (dictInsert_keys_nodup d (key x) (val x) h)

/-! ## Filesystem and sync-loop lemmas -/

/-- Writing a file never removes another path from the filesystem. -/
theorem fsExists_dictInsert_of (fs : FS) (p q c : String)
    (h : fsExists fs p = true) : fsExists (dictInsert fs q c) p = true := by
  by_cases hpq : p = q
  · subst hpq
    simp [fsExists, dictLookup_dictInsert_self]
  · simpa [fsExists, dictLookup_dictInsert_ne fs q c p hpq] using h

/-- One sync-loop iteration never removes an existing path. -/
theorem sync_file_exists_mono (r : Remote) (data_path : String) (st : SyncState)
    (e : String × String) (p : String) (h : fsExists st.fs p = true) :
    fsExists (sync_file r data_path st e).fs p = true := by
  unfold sync_file
  by_cases h1 : fsExists st.fs (archive_path data_path e.1) = true
  · simpa [h1] using h
  · simp only [h1, Bool.false_eq_true, if_false]
    by_cases h2 : (r.file_meta e.2).is_downloadable = true <;>
      simp [h2, fsExists_dictInsert_of _ _ _ _ h]

/-- After one sync-loop iteration, the iterated entry's on-disk path exists
(either it already did, or the branch taken wrote it). -/
theorem sync_file_own_exists (r : Remote) (data_path : String) (st : SyncState)
    (e : String × String) :
    fsExists (sync_file r data_path st e).fs (archive_path data_path e.1) = true := by
  unfold sync_file
  by_cases h1 : fsExists st.fs (archive_path data_path e.1) = true
  · simp [h1]
  · simp only [h1, Bool.false_eq_true, if_false]
    by_cases h2 : (r.file_meta e.2).is_downloadable = true <;>
      simp [h2, fsExists, dictLookup_dictInsert_self]

/-- The sync loop never removes an existing path. -/
theorem sync_foldl_exists_mono (r : Remote) (data_path : String)
    (l : List (String × String)) (st : SyncState) (p : String)
    (h : fsExists st.fs p = true) :
    fsExists (l.foldl (sync_file r data_path) st).fs p = true := by
  induction l generalizing st with
  | nil => exact h
  | cons e rest ih =>
    exact ih _ (sync_file_exists_mono r data_path st e p h)

/-- After a full sync run, every entry of the flat file map has its on-disk
path present in the archive. -/
theorem sync_files_all_exist (r : Remote) (data_path : String)
    (files : List (String × String)) (fs : FS) (e : String × String)
    (he : e ∈ files) :
    fsExists (sync_files r data_path files fs).fs (archive_path data_path e.1) = true := by
  unfold sync_files
  generalize { fs := fs, downloads := 0, meta_gets := 0 : SyncState } = st
  induction files generalizing st with
  | nil => cases he
  | cons x rest ih =>
    rcases List.mem_cons.mp he with rfl | hmem
    · exact sync_foldl_exists_mono r data_path rest _ _
        (sync_file_own_exists r data_path st e)
    · exact ih hmem _

/-- When every entry's on-disk path is already present, the sync loop is a
no-op: no metadata requests, no downloads, the archive untouched. -/
theorem sync_files_skip_all (r : Remote) (data_path : String)
    (files : List (String × String)) (fs : FS)
    (h : ∀ e ∈ files, fsExists fs (archive_path data_path e.1) = true) :
    sync_files r data_path files fs = { fs := fs, downloads := 0, meta_gets := 0 } := by
  unfold sync_files
  induction files with
  | nil => rfl
  | cons x rest ih =>
    have hx : fsExists fs (archive_path data_path x.1) = true :=
      h x (List.mem_cons_self x rest)
    have hstep : sync_file r data_path { fs := fs, downloads := 0, meta_gets := 0 } x
        = { fs := fs, downloads := 0, meta_gets := 0 } := by
      unfold sync_file
      simp [hx]
    simpa [hstep] using ih (fun e he => h e (List.mem_cons_of_mem x he))

/-- The character-wise substitution of `clean_path` preserves every `/`
occurrence (the separator is not in the forbidden class, and no forbidden
character is rewritten *to* a separator). -/
theorem count_slash_map_clean (l : List Char) :
    (l.map fun c => if dirtyChar c then '_' else c).count '/' = l.count '/' := by
  induction l with
  | nil => rfl
  | cons c rest ih =>
    by_cases h : dirtyChar c = true
    · have hc : c ≠ '/' := by
        intro hh
        subst hh
        simp [dirtyChar] at h
      simp [List.count_cons, h, ih, hc]
    · simp [List.count_cons, h, ih]

/-- The subfolder-merging loop of `get_files` preserves key uniqueness. -/
theorem get_files_go_keys_nodup (subs : List Folder) (pp : String)
    (d : List (String × String)) (h : (dictKeys d).Nodup) :
    (dictKeys (get_files_go subs pp d)).Nodup := by
  induction subs generalizing d with
  | nil => simpa [get_files_go] using h
  | cons s rest ih =>
    rw [get_files_go]
    exact ih _ (foldl_dictInsert_keys_nodup Prod.fst Prod.snd (get_files s pp) d h)

/-- A key assigned by no fold step keeps its prior binding. -/
theorem dictLookup_foldl_insert_absent {α β : Type} (key : β → String) (val : β → α)
    (l : List β) (k : String) (h : ∀ x ∈ l, key x ≠ k) (d : List (String × α)) :
    dictLookup (l.foldl (fun d x => dictInsert d (key x) (val x)) d) k = dictLookup d k := by
  induction l generalizing d with
  | nil => rfl
  | cons x rest ih =>
    rw [List.foldl_cons, ih (fun y hy => h y (List.mem_cons_of_mem x hy))]
    exact dictLookup_dictInsert_ne d (key x) (val x) k
      (h x (List.mem_cons_self x rest)).symm

/-! ## Claims -/

/-- C1, counterexample: a course title containing a path separator is not
sanitized into one name segment.  With course `C/D` and file `A:B?.pdf`, the
sync loop writes to `<data>/archive/C/D/A_B_.pdf` — the `/` of the title
survives `clean_path` and spans two directories — and nothing is written at
the claimed location `<data>/archive/C_D/A_B_.pdf`. -/
theorem sync_slash_in_course_title_cex :
    (sync_files ⟨fun _ => ⟨true⟩, fun _ => "bytes"⟩ "." [("C/D/A:B?.pdf", "id1")] []).fs
      = [("./archive/C/D/A_B_.pdf", "bytes")]
    ∧ dictLookup (sync_files ⟨fun _ => ⟨true⟩, fun _ => "bytes"⟩ "."
        [("C/D/A:B?.pdf", "id1")] []).fs "./archive/C_D/A_B_.pdf" = none :=
  ⟨rfl, rfl⟩

/-- C1, amended: every path the synchronizer writes is free of the eight
forbidden characters `< > : " \ | ? *` (each is replaced by `_`), but
path-separator characters embedded in a name segment are NOT replaced —
`clean_path` preserves every `/` — so a `/` inside a course title, folder
name or file name does create nested directories; `A:B?.pdf` under course
`C/D` is written to `<data>/archive/C/D/A_B_.pdf`. -/
theorem clean_path_removes_dirty_keeps_separators :
    (∀ p : String,
        ((clean_path p).data.all fun c => !(dirtyChar c)) = true
        ∧ (clean_path p).data.count '/' = p.data.count '/')
    ∧ (sync_files ⟨fun _ => ⟨true⟩, fun _ => "pdfbytes"⟩ "."
        [("C/D/A:B?.pdf", "id9")] []).fs = [("./archive/C/D/A_B_.pdf", "pdfbytes")] := by
  constructor
  · intro p
    constructor
    · rw [List.all_eq_true]
      intro c hc
      rcases List.mem_map.mp hc with ⟨c0, _, rfl⟩
      by_cases h : dirtyChar c0 = true
      · rw [if_pos h]
        decide
      · rw [if_neg h]
        simp [Bool.eq_false_iff.mpr h]
    · exact count_slash_map_clean p.data
  · rfl

/-- C2: the flattener evaluated at the spec's own example tree
(`root{files:[f1], subfolders:[{name:"sub", files:[f2]}]}`, parent path
`"Course"`): line 261 extends the path with the *current* folder's name
instead of the subfolder's, so the file inside `sub` is keyed
`Course/root/f2` and the claimed key `Course/sub/f2` does not exist. -/
theorem get_files_flattening_example :
    get_files (.node "root" [⟨"f1", "id1"⟩] [.node "sub" [⟨"f2", "id2"⟩] []]) "Course"
      = [("Course/f1", "id1"), ("Course/root/f2", "id2")]
    ∧ dictLookup
        (get_files (.node "root" [⟨"f1", "id1"⟩] [.node "sub" [⟨"f2", "id2"⟩] []]) "Course")
        "Course/sub/f2" = none :=
  ⟨rfl, rfl⟩

/-- C3: running the archive synchronizer a second time with the same flat
file map against the archive the first run produced performs zero metadata
requests and zero content downloads and leaves the archive byte-identical. -/
theorem sync_idempotent (r : Remote) (data_path : String)
    (files : List (String × String)) (fs : FS) :
    sync_files r data_path files (sync_files r data_path files fs).fs
      = { fs := (sync_files r data_path files fs).fs, downloads := 0, meta_gets := 0 } :=
  sync_files_skip_all r data_path files _
    (fun e he => sync_files_all_exist r data_path files fs e he)

/-- C4: a file whose metadata says `is_downloadable = false` is synced as a
placeholder whose exact content is `studip-sync:non-downloadable-file`, with
no content download issued; on the next run the path counts as present, so
the file is never re-fetched (no metadata request either). -/
theorem sync_non_downloadable_placeholder (r : Remote) (data_path : String)
    (fs : FS) (p fid : String)
    (hmeta : (r.file_meta fid).is_downloadable = false)
    (habs : fsExists fs (archive_path data_path p) = false) :
    dictLookup (sync_files r data_path [(p, fid)] fs).fs (archive_path data_path p)
      = some placeholderText
    ∧ (sync_files r data_path [(p, fid)] fs).downloads = 0
    ∧ sync_files r data_path [(p, fid)] (sync_files r data_path [(p, fid)] fs).fs
        = { fs := (sync_files r data_path [(p, fid)] fs).fs,
            downloads := 0, meta_gets := 0 } := by
  have hstep : sync_files r data_path [(p, fid)] fs
      = { fs := dictInsert fs (archive_path data_path p) placeholderText,
          downloads := 0, meta_gets := 1 } := by
    unfold sync_files sync_file
    simp [habs, hmeta]
  refine ⟨?_, ?_, ?_⟩
  · rw [hstep]
    exact dictLookup_dictInsert_self fs (archive_path data_path p) placeholderText
  · rw [hstep]
  · apply sync_files_skip_all
    intro e he
    rcases List.mem_singleton.mp he with rfl
    rw [hstep]
    simp [fsExists, dictLookup_dictInsert_self]

/-- Witness for C4 at a concrete non-downloadable file. -/
theorem sync_non_downloadable_placeholder_witness :
    ((⟨fun _ => ⟨false⟩, fun _ => "x"⟩ : Remote).file_meta "f1").is_downloadable = false
    ∧ fsExists [] (archive_path "." "Course/notes.pdf") = false
    ∧ (dictLookup (sync_files ⟨fun _ => ⟨false⟩, fun _ => "x"⟩ "."
          [("Course/notes.pdf", "f1")] []).fs (archive_path "." "Course/notes.pdf")
        = some placeholderText
      ∧ (sync_files ⟨fun _ => ⟨false⟩, fun _ => "x"⟩ "."
          [("Course/notes.pdf", "f1")] []).downloads = 0
      ∧ sync_files ⟨fun _ => ⟨false⟩, fun _ => "x"⟩ "." [("Course/notes.pdf", "f1")]
          (sync_files ⟨fun _ => ⟨false⟩, fun _ => "x"⟩ "."
            [("Course/notes.pdf", "f1")] []).fs
        = { fs := (sync_files ⟨fun _ => ⟨false⟩, fun _ => "x"⟩ "."
              [("Course/notes.pdf", "f1")] []).fs, downloads := 0, meta_gets := 0 }) :=
  ⟨rfl, rfl,
    sync_non_downloadable_placeholder ⟨fun _ => ⟨false⟩, fun _ => "x"⟩ "." []
      "Course/notes.pdf" "f1" rfl rfl⟩

/-- C5, counterexample: the logical paths `a:b` and `a?b` are distinct map
keys that collide on the sanitized disk path `d/archive/a_b`.  Neither map
entry overwrites the other, and the disk content at the collision path is
the EARLIER file's (`"one"`), not the later's (`"two"`): the later entry is
skipped because the path already exists. -/
theorem sanitized_collision_cex :
    dictInsert (dictInsert [] "a:b" "id1") "a?b" "id2"
      = [("a:b", "id1"), ("a?b", "id2")]
    ∧ archive_path "d" "a:b" = archive_path "d" "a?b"
    ∧ (sync_files ⟨fun _ => ⟨true⟩, fun i => if i = "id1" then "one" else "two"⟩ "d"
        [("a:b", "id1"), ("a?b", "id2")] []).fs = [("d/archive/a_b", "one")]
    ∧ ("one" : String) ≠ "two" :=
  ⟨rfl, rfl, rfl, by decide⟩

/-- C5, amended: the keys of the flat file map are unique.  Two remote files
with the SAME logical path collapse into one map entry holding the
later-processed id (dict last-write-wins).  Two files with DIFFERENT logical
paths that collide only after sanitization both remain in the map, and the
EARLIER-processed one determines what is written to disk: the later entry is
skipped because its sanitized path already exists. -/
theorem file_map_collision_policy :
    (∀ (f : Folder) (pp : String), (dictKeys (get_files f pp)).Nodup)
    ∧ (∀ (pp n i1 i2 : String),
        get_files (.node "F" [⟨n, i1⟩, ⟨n, i2⟩] []) pp = [(pp ++ "/" ++ n, i2)])
    ∧ (∀ (r : Remote) (d p1 p2 id1 id2 : String) (fs : FS),
        archive_path d p1 = archive_path d p2 →
        fsExists fs (archive_path d p1) = false →
        (r.file_meta id1).is_downloadable = true →
        dictLookup (sync_files r d [(p1, id1), (p2, id2)] fs).fs (archive_path d p1)
          = some (r.file_content id1)) := by
  refine ⟨?_, ?_, ?_⟩
  · intro f pp
    cases f with
    | node name fls subs =>
      rw [get_files]
      exact get_files_go_keys_nodup subs _ _
        (foldl_dictInsert_keys_nodup (fun f => pp ++ "/" ++ f.name) FileEntry.id fls []
          (by simp [dictKeys]))
  · intro pp n i1 i2
    simp [get_files, get_files_go, dictInsert]
  · intro r d p1 p2 id1 id2 fs hcoll habs hdl
    have hstep1 : sync_file r d { fs := fs, downloads := 0, meta_gets := 0 } (p1, id1)
        = { fs := dictInsert fs (archive_path d p1) (r.file_content id1),
            downloads := 1, meta_gets := 1 } := by
      unfold sync_file
      simp [habs, hdl]
    have hstep2 :
        sync_file r d
          { fs := dictInsert fs (archive_path d p1) (r.file_content id1),
            downloads := 1, meta_gets := 1 } (p2, id2)
        = { fs := dictInsert fs (archive_path d p1) (r.file_content id1),
            downloads := 1, meta_gets := 1 } := by
      unfold sync_file
      have : fsExists (dictInsert fs (archive_path d p1) (r.file_content id1))
          (archive_path d p2) = true := by
        rw [← hcoll]
        simp [fsExists, dictLookup_dictInsert_self]
      simp [this]
    unfold sync_files
    rw [List.foldl_cons, hstep1, List.foldl_cons, hstep2, List.foldl_nil]
    exact dictLookup_dictInsert_self fs (archive_path d p1) (r.file_content id1)

/-- Witness for C5's sanitized-collision clause at concrete inputs. -/
theorem file_map_collision_policy_witness :
    archive_path "d" "a<b" = archive_path "d" "a>b"
    ∧ fsExists [] (archive_path "d" "a<b") = false
    ∧ ((⟨fun _ => ⟨true⟩, fun i => if i = "i1" then "ONE" else "TWO"⟩ : Remote).file_meta
        "i1").is_downloadable = true
    ∧ dictLookup
        (sync_files ⟨fun _ => ⟨true⟩, fun i => if i = "i1" then "ONE" else "TWO"⟩ "d"
          [("a<b", "i1"), ("a>b", "i2")] []).fs (archive_path "d" "a<b")
        = some "ONE" :=
  ⟨by decide, rfl, rfl,
    file_map_collision_policy.2.2
      ⟨fun _ => ⟨true⟩, fun i => if i = "i1" then "ONE" else "TWO"⟩
      "d" "a<b" "a>b" "i1" "i2" [] (by decide) rfl rfl⟩

/-- C6: a folder whose `is_readable` flag is not literally present-and-true
is returned as the empty leaf with zero remote requests, whatever children
or files the server would report, and that leaf contributes no entry to the
flattened file map. -/
theorem get_subfolders_unreadable_empty (stub : FolderStub) (subSt filesSt : Nat)
    (fls : List FileEntry) (children : List SrvTree) (pp : String)
    (h : stub.is_readable ≠ some true) :
    get_subfolders (.node stub subSt filesSt fls children) = .ok (emptyLeaf, 0)
    ∧ get_files emptyLeaf pp = [] := by
  constructor
  · rw [get_subfolders, if_neg h]
  · rfl

/-- Witness for C6: a readability-unmarked folder with children and files
reported and failing endpoints still yields the empty leaf and no calls. -/
theorem get_subfolders_unreadable_empty_witness :
    (⟨"hidden", none⟩ : FolderStub).is_readable ≠ some true
    ∧ (get_subfolders (.node ⟨"hidden", none⟩ 500 500 [⟨"f", "fid"⟩]
          [.node ⟨"child", some true⟩ 200 200 [] []]) = .ok (emptyLeaf, 0)
      ∧ get_files emptyLeaf "Course" = []) :=
  ⟨by decide,
    get_subfolders_unreadable_empty ⟨"hidden", none⟩ 500 500 [⟨"f", "fid"⟩]
      [.node ⟨"child", some true⟩ 200 200 [] []] "Course" (by decide)⟩

/-- C7: relinking a semester whose course titles are
`{Seminar A, Seminar A, Seminar B}` recreates the links directory with
exactly two entries, one per distinct escaped title, each a relative symlink
`../archive/<title>`; the previous directory contents do not influence the
result (they are deleted first). -/
theorem update_links_dedup_titles (prev : Option (List (String × String))) :
    update_links
      (.ok [⟨"Seminar A", none⟩, ⟨"Seminar A", none⟩, ⟨"Seminar B", none⟩]) prev
      = (some [("Seminar A", "../archive/Seminar A"),
          ("Seminar B", "../archive/Seminar B")], none) :=
  rfl

/-- C8: selecting a title matching no semester of the remote collection
fails with the lookup error, and both the in-memory current-semester field
and the persisted marker file are exactly as before the call. -/
theorem select_semester_absent_title (semesters : List SemMeta) (title : String)
    (st : AppState) (h : ∀ s ∈ semesters, s.title ≠ title) :
    select_semester semesters title st = (st, some ("KeyError: " ++ title)) := by
  have hl : dictLookup (semesters.foldl (fun d v => dictInsert d v.title v) []) title
      = none :=
    (dictLookup_foldl_insert_absent SemMeta.title (fun v => v) semesters title h []).trans
      rfl
  simp [select_semester, hl]

/-- Witness for C8 at a concrete absent title. -/
theorem select_semester_absent_title_witness :
    (∀ s ∈ [(⟨"WS 2024", "sem_ws24"⟩ : SemMeta)], s.title ≠ "SS 2025")
    ∧ select_semester [⟨"WS 2024", "sem_ws24"⟩] "SS 2025"
        ⟨some "sem_old", some "sem_old"⟩
      = (⟨some "sem_old", some "sem_old"⟩, some ("KeyError: " ++ "SS 2025")) :=
  ⟨by decide,
    select_semester_absent_title [⟨"WS 2024", "sem_ws24"⟩] "SS 2025"
      ⟨some "sem_old", some "sem_old"⟩ (by decide)⟩

/-- C9, counterexample: 204 is a success status in the ordinary HTTP sense,
yet `get_req` raises on it — the code tests `status != 200`, not
"not a success". -/
theorem get_req_success_status_cex :
    successStatus_spec 204 = true
    ∧ get_req ⟨204, "body", "json"⟩ "https://host/api"
        = .error "Failed to get https://host/api: 204" :=
  ⟨rfl, rfl⟩

/-- C9, amended: `get_req` raises a transport error carrying the HTTP status
exactly when the status differs from 200 (so even non-200 success statuses
raise); on 200, `get` returns the parsed body and `get_no_parse` the raw
bytes; and such an error aborts the whole enclosing operation with that
status, no retry and no fallback: a non-200 answer to any request of the
recursive tree fetch aborts the whole fetch, a non-200 metadata or content
answer inside the sync download loop aborts the whole sync run (the
remaining entries are never processed), and a course-fetch failure inside
the relink operation surfaces from it. -/
theorem get_req_error_iff_not_200 :
    (∀ (resp : Response) (url : String),
        (get_req resp url
            = .error ("Failed to get " ++ url ++ ": " ++ toString resp.status_code)
          ↔ resp.status_code ≠ 200)
        ∧ (resp.status_code = 200 →
            get resp url = .ok resp.json ∧ get_no_parse resp url = .ok resp.content))
    ∧ (∀ (stub : FolderStub) (subSt filesSt : Nat) (fls : List FileEntry)
          (children : List SrvTree),
        stub.is_readable = some true →
        (subSt ≠ 200 →
          get_subfolders (.node stub subSt filesSt fls children) = .error subSt)
        ∧ (subSt = 200 → filesSt ≠ 200 →
          get_subfolders (.node stub subSt filesSt fls children) = .error filesSt)
        ∧ (∀ s : Nat, subSt = 200 → filesSt = 200 →
            get_subfolders_go children = .error s →
            get_subfolders (.node stub subSt filesSt fls children) = .error s))
    ∧ (∀ (r : RemoteE) (d p fid : String) (rest : List (String × String))
          (st : SyncState) (s : Nat),
        fsExists st.fs (archive_path d p) = false →
        (r.file_meta fid = .error s →
          sync_filesE_go r d ((p, fid) :: rest) st = .error s)
        ∧ (∀ meta : FileMeta, r.file_meta fid = .ok meta →
            meta.is_downloadable = true → r.file_content fid = .error s →
            sync_filesE_go r d ((p, fid) :: rest) st = .error s))
    ∧ (∀ (s : Nat) (prev : Option (List (String × String))),
        (update_links (.error s) prev).2 = some s) := by
  refine ⟨?_, ?_, ?_, ?_⟩
  · intro resp url
    constructor
    · by_cases h : resp.status_code = 200 <;> simp [get_req, h]
    · intro h
      simp [get, get_no_parse, get_req, h, Except.map]
  · intro stub subSt filesSt fls children hr
    refine ⟨?_, ?_, ?_⟩
    · intro hs
      rw [get_subfolders, if_pos hr, if_pos hs]
    · intro hs hf
      rw [get_subfolders, if_pos hr, if_neg (by simp [hs]), if_pos hf]
    · intro s hs hf hgo
      rw [get_subfolders, if_pos hr, if_neg (by simp [hs]), if_neg (by simp [hf]), hgo]
  · intro r d p fid rest st s habs
    constructor
    · intro hmeta
      rw [sync_filesE_go]
      unfold sync_fileE
      simp [habs, hmeta]
    · intro meta hmeta hdl hcontent
      rw [sync_filesE_go]
      unfold sync_fileE
      simp [habs, hmeta, hdl, hcontent]
  · intro s prev
    rfl

/-- Witness for C9's amended statement at concrete inputs. -/
theorem get_req_error_iff_not_200_witness :
    ((get_req ⟨500, "c", "j"⟩ "u" = .error ("Failed to get " ++ "u" ++ ": " ++
        toString (500 : Nat))) ↔ (500 : Nat) ≠ 200)
    ∧ ((200 : Nat) = 200
      ∧ (get ⟨200, "c", "j"⟩ "u" = .ok "j" ∧ get_no_parse ⟨200, "c", "j"⟩ "u" = .ok "c"))
    ∧ ((⟨"top", some true⟩ : FolderStub).is_readable = some true
      ∧ (500 : Nat) ≠ 200
      ∧ get_subfolders (.node ⟨"top", some true⟩ 500 200 [] []) = .error 500)
    ∧ (fsExists ([] : FS) (archive_path "." "Course/a.pdf") = false
      ∧ (⟨fun _ => .error 503, fun _ => .error 503⟩ : RemoteE).file_meta "f9"
          = .error 503
      ∧ sync_filesE_go ⟨fun _ => .error 503, fun _ => .error 503⟩ "."
          [("Course/a.pdf", "f9"), ("Course/b.pdf", "f8")]
          { fs := [], downloads := 0, meta_gets := 0 } = .error 503) :=
  ⟨(get_req_error_iff_not_200.1 ⟨500, "c", "j"⟩ "u").1,
    ⟨rfl, (get_req_error_iff_not_200.1 ⟨200, "c", "j"⟩ "u").2 rfl⟩,
    ⟨rfl, by decide,
      ((get_req_error_iff_not_200.2.1 ⟨"top", some true⟩ 500 200 [] []) rfl).1
        (by decide)⟩,
    ⟨rfl, rfl,
      (get_req_error_iff_not_200.2.2.1 ⟨fun _ => .error 503, fun _ => .error 503⟩
        "." "Course/a.pdf" "f9" [("Course/b.pdf", "f8")]
        { fs := [], downloads := 0, meta_gets := 0 } 503 rfl).1 rfl⟩⟩

/-- C10: `update_links` removes and recreates the `this-semester` directory
before fetching the course list; when that fetch raises, the operation
terminates with the directory existing but empty — the previous symlinks are
lost and no new ones are created — and the error propagates. -/
theorem update_links_failure_leaves_empty_dir (s : Nat)
    (prev : Option (List (String × String))) :
    update_links (.error s) prev = (some [], some s) :=
  rfl

end StudipSync
